import Mathlib

/-!
Shallow embedding of `src/dictation.py`, a hotkey-driven dictation tool:
a toggle state machine (`on_toggle`) coordinating an audio recorder
(`start_recording` / `stop_recording`), a transcription call (`transcribe`),
clipboard-based text injection (`inject_text`), and the background task
(`_process_recording`).  External effects (the sounddevice stream, the
OpenAI API, the clipboard commands) are modelled by explicit parameters
recording their outcomes; module-level globals become an explicit state
record threaded through the functions.
-/

namespace Dictation

/-- `SAMPLE_RATE = 16000` in the source configuration. -/
def SAMPLE_RATE : Nat := 16000

/-- One block delivered by the audio callback (`indata.copy()`): a list of
int16 samples, modelled as integers. -/
abbrev Block := List Int

/-- The module-level mutable globals of `dictation.py`:
`is_recording`, `audio_chunks`, and `stream` (modelled by whether the
global currently holds an open stream rather than `None`). -/
structure AppState where
  is_recording : Bool
  audio_chunks : List Block
  stream : Bool
  deriving Repr, DecidableEq

/-- The globals at process start: not recording, no chunks, `stream = None`. -/
def initState : AppState := ⟨false, [], false⟩

/-- `start_recording()`: resets `audio_chunks` to `[]`, then opens the input
stream.  `ok` records whether `sd.InputStream(...)` succeeds; on failure the
constructor raises, so `stream` keeps its previous value and the returned
flag marks the propagating exception.  (The sound cue, notification and
`time.sleep(0.8)` have no effect on the modelled state.) -/
def start_recording (ok : Bool) (s : AppState) : AppState × Bool :=
  let s1 := { s with audio_chunks := ([] : List Block) }
  if ok then ({ s1 with stream := true }, false) else (s1, true)

/-- `stop_recording()`: if `stream is not None` it stops, closes and clears
it; otherwise nothing touches the state.  The chunk buffer is not cleared
here, and no path raises. -/
def stop_recording (s : AppState) : AppState :=
  if s.stream then { s with stream := false } else s

/-- Result of one `on_toggle()` call: the globals afterwards, whether a
background `_process_recording` thread was spawned, and whether an
exception propagated out of the call. -/
structure ToggleResult where
  state : AppState
  spawned : Bool
  errored : Bool
  deriving Repr, DecidableEq

/-- `on_toggle()` under the lock: from idle it sets `is_recording = True`
and then calls `start_recording()` (whose failure propagates, with the flag
already set); from recording it sets `is_recording = False`, calls
`stop_recording()`, and spawns the background processing thread. -/
def on_toggle (ok : Bool) (s : AppState) : ToggleResult :=
  if s.is_recording = false then
    let r := start_recording ok { s with is_recording := true }
    ⟨r.1, false, r.2⟩
  else
    ⟨stop_recording { s with is_recording := false }, true, false⟩

/-- The sequence of global states left after each call in a run of
`on_toggle()` calls, where `oks` lists whether each start attempt succeeds
(the entry is ignored on stop toggles). -/
def toggleStates (oks : List Bool) (s : AppState) : List AppState :=
  match oks with
  | [] => []
  | ok :: rest =>
    let r := on_toggle ok s
    r.state :: toggleStates rest r.state

theorem on_toggle_flips (ok : Bool) (s : AppState) :
    (on_toggle ok s).state.is_recording = !s.is_recording := by
  cases h : s.is_recording <;> cases ok <;> cases hs : s.stream <;>
    simp [on_toggle, start_recording, stop_recording, h, hs]

theorem toggleStates_length (oks : List Bool) (s : AppState) :
    (toggleStates oks s).length = oks.length := by
  induction oks generalizing s with
  | nil => rfl
  | cons ok rest ih => simp [toggleStates, ih]

theorem toggleStates_get_is_recording (oks : List Bool) (s : AppState)
    (i : Nat) (h : i < (toggleStates oks s).length) :
    ((toggleStates oks s).get ⟨i, h⟩).is_recording
      = (s.is_recording != decide (i % 2 = 0)) := by
  induction oks generalizing s i with
  | nil => simp [toggleStates] at h
  | cons ok rest ih =>
    cases i with
    | zero =>
      show (on_toggle ok s).state.is_recording = _
      rw [on_toggle_flips]
      cases s.is_recording <;> simp
    | succ j =>
      have h2 : j < (toggleStates rest (on_toggle ok s).state).length := by
        simpa [toggleStates] using Nat.lt_of_succ_lt_succ h
      have step : ((toggleStates (ok :: rest) s).get ⟨j + 1, h⟩)
          = (toggleStates rest (on_toggle ok s).state).get ⟨j, h2⟩ := by
        simp [toggleStates]
      rw [step, ih]
      rw [on_toggle_flips]
      have hm : decide ((j + 1) % 2 = 0) = !decide (j % 2 = 0) := by
        rcases Nat.even_or_odd j with he | ho
        · have h1 : j % 2 = 0 := Nat.even_iff.mp he
          have h2m : (j + 1) % 2 = 1 := by omega
          simp [h1, h2m]
        · have h1 : j % 2 = 1 := Nat.odd_iff.mp ho
          have h2m : (j + 1) % 2 = 0 := by omega
          simp [h1, h2m]
      rw [hm]
      cases s.is_recording <;> cases decide (j % 2 = 0) <;> simp

/-- The transcription API response: `response_format="text"` normally
yields a plain string, but the client may also return a structured object
carrying a `.text` field; `transcribe` handles both shapes. -/
inductive ApiResponse where
  | plain (s : String)
  | structured (text : String)
  deriving Repr, DecidableEq

/-- Python's `str.strip()`: remove leading and trailing whitespace,
embedded as an executable function on the string's character list. -/
def pyStrip (s : String) : String :=
  ⟨(((s.data.dropWhile Char.isWhitespace).reverse).dropWhile Char.isWhitespace).reverse⟩

/-- The final expression of `transcribe`:
`result.strip() if isinstance(result, str) else result.text.strip()`. -/
def responseToText : ApiResponse → String
  | .plain s => pyStrip s
  | .structured t => pyStrip t

/-- `os.path.join(tempfile.gettempdir(), "dictation_recording.wav")`:
a fixed file name inside the temp directory, computed from nothing but the
temp directory — the same path on every call. -/
def tmpPath (tempDir : String) : String := tempDir ++ "/" ++ "dictation_recording.wav"

/-- Observable trace of one `transcribe(audio)` call: the path the WAV was
written to, the returned text or the propagating exception, and whether
`os.remove(tmp)` executed before the call exited. -/
structure TranscribeTrace where
  wavPath : String
  wavContents : List Int
  result : Except Unit String
  fileDeleted : Bool
  deriving Repr

/-- `transcribe(audio)`: writes the WAV to the fixed temp path, submits it
to the API (`api` records the call's outcome), and only then runs
`os.remove(tmp)` — there is no `try`/`finally`, so when the API call raises,
the exception propagates before the removal line runs. -/
def transcribe (tempDir : String) (audio : List Int)
    (api : Except Unit ApiResponse) : TranscribeTrace :=
  let tmp := tmpPath tempDir
  match api with
  | .error e =>
    { wavPath := tmp, wavContents := audio, result := .error e, fileDeleted := false }
  | .ok r =>
    { wavPath := tmp, wavContents := audio, result := .ok (responseToText r),
      fileDeleted := true }

/-- How one background `_process_recording` run ended. -/
inductive ProcessOutcome where
  | noAudio
  | tooShort
  | transcriptionError
  | emptyResult
  | injected (text : String)
  deriving Repr, DecidableEq

/-- Observable trace of one `_process_recording` run: its outcome, and
whether `transcribe` and `inject_text` were invoked. -/
structure ProcessTrace where
  outcome : ProcessOutcome
  transcribeCalled : Bool
  injectCalled : Bool
  deriving Repr, DecidableEq

/-- `_process_recording()`, applied to the chunk list it reads from the
global.  The guard `duration < 0.3` with `duration = len(audio)/16000` is
embedded as the exact rational comparison `10 * len < 3 * 16000`
(i.e. `len < 4800`); the float computation in the source agrees: for
`len = 4800` both sides round to the same double, so `<` is false, and the
correctly rounded division is monotone in `len`. -/
def process_recording (tempDir : String) (chunks : List Block)
    (api : Except Unit ApiResponse) : ProcessTrace :=
  if chunks.isEmpty then ⟨.noAudio, false, false⟩
  else
    let audio := chunks.flatten
    if 10 * audio.length < 3 * SAMPLE_RATE then ⟨.tooShort, false, false⟩
    else
      match (transcribe tempDir audio api).result with
      | .error _ => ⟨.transcriptionError, true, false⟩
      | .ok text =>
        if text = "" then ⟨.emptyResult, true, false⟩
        else ⟨.injected text, true, true⟩

/-- `_get_clipboard()`: `pbpaste` output on success, `""` when the
subprocess call raises (`readOk` records which happened). -/
def get_clipboard (readOk : Bool) (clip : String) : String :=
  if readOk then clip else ""

/-- `_set_clipboard(text)`: on success the clipboard becomes `text`; a
`pbcopy` failure is caught and logged, leaving the clipboard unchanged. -/
def set_clipboard (writeOk : Bool) (clip : String) (text : String) : String :=
  if writeOk then text else clip

/-- `inject_text(text)` acting on the clipboard contents `clip`: read the
original, write `text`, simulate Cmd+V (no clipboard effect), write the
original back.  `readOk`, `writeTextOk`, `restoreOk` record the outcomes of
the three clipboard subprocess calls. -/
def inject_text (readOk writeTextOk restoreOk : Bool) (text : String)
    (clip : String) : String :=
  let original := get_clipboard readOk clip
  let c1 := set_clipboard writeTextOk clip text
  set_clipboard restoreOk c1 original

/-- An interleaving event of the whole process: a hotkey toggle (with the
start attempt's outcome), an audio-callback block arriving while the stream
is open, or the scheduler running the next pending background
`_process_recording` thread. -/
inductive Event where
  | toggle (ok : Bool)
  | callback (b : Block)
  | runTask
  deriving Repr, DecidableEq

/-- Whole-process state for interleaved executions: the globals, the value
of `audio_chunks` at each stop event (in spawn order) — the buffer each
spawned task is "supposed to" process — and the value of the global
`audio_chunks` that each task actually read when it executed. -/
structure Sys where
  app : AppState
  spawnedWith : List (List Block)
  executed : List (List Block)
  deriving Repr, DecidableEq

/-- Process state at startup. -/
def initSys : Sys := ⟨initState, [], []⟩

/-- One interleaving step.  A spawned `_process_recording` thread reads the
module-level global `audio_chunks` when it executes (modelled as a single
atomic read), not a buffer captured at spawn time. -/
def stepEvent (s : Sys) : Event → Sys
  | .toggle ok =>
    let r := on_toggle ok s.app
    { s with
      app := r.state
      spawnedWith :=
        if r.spawned then s.spawnedWith ++ [s.app.audio_chunks] else s.spawnedWith }
  | .callback b =>
    if s.app.stream then
      { s with app := { s.app with audio_chunks := s.app.audio_chunks ++ [b] } }
    else s
  | .runTask =>
    if s.executed.length < s.spawnedWith.length then
      { s with executed := s.executed ++ [s.app.audio_chunks] }
    else s

/-- Run a whole interleaving. -/
def runEvents (evts : List Event) (s : Sys) : Sys := evts.foldl stepEvent s

/-- An interleaving where the user starts a new recording before the
background task of the previous session gets scheduled: start, one captured
block, stop (spawns the task), start again, then the task runs. -/
def raceEvents : List Event :=
  [.toggle true, .callback [1], .toggle true, .toggle true, .runTask]

/-! ## Claim theorems -/

/-- C1 counterexample: with a failing `sd.InputStream` (`ok = false`),
`on_toggle` from the idle initial state returns with the error propagating
and `is_recording = true` — the controller does not revert to Idle, so the
claim as stated is false at this concrete input. -/
theorem claim_C1_counterexample :
    (on_toggle false initState).errored = true ∧
    ¬ ((on_toggle false initState).state.is_recording = false) := by decide

/-- C1 (amended): if `AudioRecorder.Start()` fails while handling a
`Toggle()` from Idle, the error propagates out of the failing `Toggle()`
and `ControllerState` is Recording (not Idle) when it returns, because the
flag is set before `Start()` is attempted and never reverted; the next
`Toggle()` (with any start outcome) brings the state back to Idle. -/
theorem claim_C1_start_failure_leaves_recording (s : AppState)
    (h : s.is_recording = false) :
    (on_toggle false s).errored = true ∧
    (on_toggle false s).state.is_recording = true ∧
    ∀ ok2 : Bool,
      (on_toggle ok2 (on_toggle false s).state).state.is_recording = false := by
  have h1 : (on_toggle false s).state.is_recording = true := by
    rw [on_toggle_flips, h]; rfl
  refine ⟨?_, h1, ?_⟩
  · simp [on_toggle, start_recording, h]
  · intro ok2
    rw [on_toggle_flips, h1]
    rfl

/-- C1 witness: the amended statement instantiated at the initial state. -/
theorem claim_C1_witness :
    initState.is_recording = false ∧
    ((on_toggle false initState).errored = true ∧
     (on_toggle false initState).state.is_recording = true ∧
     ∀ ok2 : Bool,
       (on_toggle ok2 (on_toggle false initState).state).state.is_recording = false) :=
  ⟨rfl, claim_C1_start_failure_leaves_recording initState rfl⟩

/-- C2: starting from any idle state, the controller state left after the
i-th `Toggle()` call (0-indexed) is Recording exactly when `i` is even —
i.e. the post-call states strictly alternate Recording, Idle, Recording, …
for every sequence of calls and every pattern of start successes. -/
theorem claim_C2_toggle_alternation (oks : List Bool) (s0 : AppState)
    (h0 : s0.is_recording = false) (i : Nat)
    (h : i < (toggleStates oks s0).length) :
    ((toggleStates oks s0).get ⟨i, h⟩).is_recording = decide (i % 2 = 0) := by
  rw [toggleStates_get_is_recording, h0]
  cases hd : decide (i % 2 = 0) <;> simp

/-- C2 witness: three toggles from the initial state; after the second call
(index 1) the state is Idle. -/
theorem claim_C2_witness :
    initState.is_recording = false ∧
    1 < (toggleStates [true, true, true] initState).length ∧
    ((toggleStates [true, true, true] initState).get ⟨1, by decide⟩).is_recording
      = decide (1 % 2 = 0) :=
  ⟨rfl, by decide,
    claim_C2_toggle_alternation [true, true, true] initState rfl 1 (by decide)⟩

/-- C3 counterexample: when the API call raises, `transcribe` exits with
the temp WAV still on disk (`os.remove` is only reached on the success
path), so the claim that the file is deleted on every exit path is false
at this concrete input. -/
theorem claim_C3_counterexample :
    ¬ ((transcribe "/tmp" [0] (Except.error ())).fileDeleted = true) := by
  simp [transcribe]

/-- C3 (amended): `transcribe` writes the WAV to a fixed path in the temp
directory and deletes it only on the successful exit path; on the path
where the remote API call raises, the exception propagates before
`os.remove` runs and the file is not deleted. -/
theorem claim_C3_tmpfile_deleted_only_on_success (tempDir : String)
    (audio : List Int) (r : ApiResponse) (e : Unit) :
    (transcribe tempDir audio (Except.ok r)).fileDeleted = true ∧
    (transcribe tempDir audio (Except.error e)).fileDeleted = false ∧
    (transcribe tempDir audio (Except.error e)).wavPath = tmpPath tempDir :=
  ⟨rfl, rfl, rfl⟩

/-- C4 counterexample: in the interleaving start → capture one block →
stop (task spawned) → start again → task runs, the spawned task's session
captured `[[1]]`, but the task reads the global `audio_chunks` after the
new start reset it and processes `[]` instead — so the claim that each
task's buffer is fixed at its stop event is false for this interleaving. -/
theorem claim_C4_counterexample :
    (runEvents raceEvents initSys).spawnedWith = [[[1]]] ∧
    (runEvents raceEvents initSys).executed = [[]] ∧
    ¬ ((runEvents raceEvents initSys).executed
        = (runEvents raceEvents initSys).spawnedWith) := by decide

/-- C4 (amended): a background task reads the shared global `audio_chunks`
when it executes, not a buffer captured at spawn time.  If the task runs
immediately after the stop toggle that spawned it — before any further
toggle or callback — it does read exactly the blocks its own session
captured; a subsequent `Toggle()` starting a new recording before the task
runs resets the shared list, and the task then reads the new session's
buffer instead (as the counterexample shows). -/
theorem claim_C4_task_reads_global_buffer (s : Sys)
    (h : s.app.is_recording = true)
    (hp : s.executed.length ≤ s.spawnedWith.length) (ok : Bool) :
    (stepEvent s (Event.toggle ok)).spawnedWith
      = s.spawnedWith ++ [s.app.audio_chunks] ∧
    (stepEvent (stepEvent s (Event.toggle ok)) Event.runTask).executed
      = s.executed ++ [s.app.audio_chunks] := by
  have htog : stepEvent s (Event.toggle ok)
      = { s with app := stop_recording { s.app with is_recording := false },
                 spawnedWith := s.spawnedWith ++ [s.app.audio_chunks] } := by
    simp [stepEvent, on_toggle, h]
  have hchunks :
      (stop_recording { s.app with is_recording := false }).audio_chunks
        = s.app.audio_chunks := by
    by_cases hs : s.app.stream = true <;> simp [stop_recording, hs]
  refine ⟨by rw [htog], ?_⟩
  rw [htog]
  have hlen : s.executed.length < (s.spawnedWith ++ [s.app.audio_chunks]).length := by
    simp only [List.length_append, List.length_singleton]
    omega
  simp only [stepEvent, hlen, if_pos, hchunks]

/-- C4 witness: the amended statement instantiated at a recording state
with one captured block and no pending tasks. -/
theorem claim_C4_witness :
    (⟨⟨true, [[2]], true⟩, [], []⟩ : Sys).app.is_recording = true ∧
    (⟨⟨true, [[2]], true⟩, [], []⟩ : Sys).executed.length
      ≤ (⟨⟨true, [[2]], true⟩, [], []⟩ : Sys).spawnedWith.length ∧
    ((stepEvent (⟨⟨true, [[2]], true⟩, [], []⟩ : Sys) (Event.toggle true)).spawnedWith
        = [] ++ [[[2]]] ∧
     (stepEvent (stepEvent (⟨⟨true, [[2]], true⟩, [], []⟩ : Sys) (Event.toggle true))
        Event.runTask).executed = [] ++ [[[2]]]) :=
  ⟨rfl, by decide,
    claim_C4_task_reads_global_buffer ⟨⟨true, [[2]], true⟩, [], []⟩ rfl (by decide) true⟩

/-- C5: whenever the concatenated buffer is shorter than 0.3 s
(`len / 16000 < 0.3`, exactly `10 * len < 3 * 16000`), the background task
never calls `transcribe`, and for a nonempty chunk list it reports the
"too short" outcome. -/
theorem claim_C5_short_buffer_not_transcribed (tempDir : String)
    (chunks : List Block) (api : Except Unit ApiResponse)
    (hshort : 10 * chunks.flatten.length < 3 * SAMPLE_RATE) :
    (process_recording tempDir chunks api).transcribeCalled = false ∧
    (chunks ≠ [] →
      (process_recording tempDir chunks api).outcome = ProcessOutcome.tooShort) := by
  by_cases hc : chunks.isEmpty
  · refine ⟨by simp [process_recording, hc], fun hne => ?_⟩
    exact absurd (List.isEmpty_iff.mp hc) hne
  · have e : process_recording tempDir chunks api
        = ⟨ProcessOutcome.tooShort, false, false⟩ := by
      unfold process_recording
      rw [if_neg hc, if_pos hshort]
    exact ⟨by rw [e], fun _ => by rw [e]⟩

/-- C5 witness: a three-sample buffer (0.1875 ms) is skipped as too short. -/
theorem claim_C5_witness :
    10 * ([[1, 2, 3]] : List Block).flatten.length < 3 * SAMPLE_RATE ∧
    (process_recording "/tmp" [[1, 2, 3]]
        (Except.ok (ApiResponse.plain "hi"))).transcribeCalled = false ∧
    (([[1, 2, 3]] : List Block) ≠ [] →
      (process_recording "/tmp" [[1, 2, 3]]
        (Except.ok (ApiResponse.plain "hi"))).outcome = ProcessOutcome.tooShort) :=
  ⟨by decide,
    claim_C5_short_buffer_not_transcribed "/tmp" [[1, 2, 3]]
      (Except.ok (ApiResponse.plain "hi")) (by decide)⟩

/-- C6: for every text and every readable pre-call clipboard value, with
the clipboard subprocess calls succeeding (the write of `text` may even
fail), `inject_text` leaves the clipboard equal to its pre-call value:
it reads the original, writes the text, pastes, and restores the
original. -/
theorem claim_C6_clipboard_roundtrip (text clip : String) (writeTextOk : Bool) :
    inject_text true writeTextOk true text clip = clip := by
  cases writeTextOk <;> rfl

/-- C7: `transcribe` handles both response shapes, returning the plain
string trimmed of surrounding whitespace, or the structured object's
`.text` field trimmed. -/
theorem claim_C7_trim_both_shapes (tempDir : String) (audio : List Int)
    (s t : String) :
    (transcribe tempDir audio (Except.ok (ApiResponse.plain s))).result
      = Except.ok (pyStrip s) ∧
    (transcribe tempDir audio (Except.ok (ApiResponse.structured t))).result
      = Except.ok (pyStrip t) :=
  ⟨rfl, rfl⟩

/-- C8: when the API response trims to the empty string, the background
task never calls `inject_text`, the run is not a transcription error, and
if `transcribe` was actually reached the outcome is the (non-error) empty
result. -/
theorem claim_C8_empty_result_no_inject (tempDir : String)
    (chunks : List Block) (r : ApiResponse) (hempty : responseToText r = "") :
    (process_recording tempDir chunks (Except.ok r)).injectCalled = false ∧
    (process_recording tempDir chunks (Except.ok r)).outcome
      ≠ ProcessOutcome.transcriptionError ∧
    ((process_recording tempDir chunks (Except.ok r)).transcribeCalled = true →
      (process_recording tempDir chunks (Except.ok r)).outcome
        = ProcessOutcome.emptyResult) := by
  by_cases hc : chunks.isEmpty
  · simp [process_recording, hc]
  · by_cases hlen : 10 * chunks.flatten.length < 3 * SAMPLE_RATE
    · have e : process_recording tempDir chunks (Except.ok r)
          = ⟨ProcessOutcome.tooShort, false, false⟩ := by
        unfold process_recording
        rw [if_neg hc, if_pos hlen]
      rw [e]
      exact ⟨rfl, by decide, fun hcall => by simp at hcall⟩
    · have e : process_recording tempDir chunks (Except.ok r)
          = ⟨ProcessOutcome.emptyResult, true, false⟩ := by
        unfold process_recording
        rw [if_neg hc, if_neg hlen]
        simp [transcribe, hempty]
      rw [e]
      exact ⟨rfl, by decide, fun _ => rfl⟩

/-- C8 witness: a 0.3 s buffer of silence whose response is whitespace
only; the task reaches `transcribe`, gets `""`, and does not inject. -/
theorem claim_C8_witness :
    responseToText (ApiResponse.plain "  ") = "" ∧
    ((process_recording "/tmp" [List.replicate 4800 0]
        (Except.ok (ApiResponse.plain "  "))).injectCalled = false ∧
     (process_recording "/tmp" [List.replicate 4800 0]
        (Except.ok (ApiResponse.plain "  "))).outcome
       ≠ ProcessOutcome.transcriptionError ∧
     ((process_recording "/tmp" [List.replicate 4800 0]
        (Except.ok (ApiResponse.plain "  "))).transcribeCalled = true →
      (process_recording "/tmp" [List.replicate 4800 0]
        (Except.ok (ApiResponse.plain "  "))).outcome
        = ProcessOutcome.emptyResult)) :=
  ⟨by decide,
    claim_C8_empty_result_no_inject "/tmp" [List.replicate 4800 0]
      (ApiResponse.plain "  ") (by decide)⟩

/-- C9: `stop_recording` on a recorder whose stream is not open is a
no-op that cannot fail: the whole state (stream and chunk buffer alike) is
unchanged, stopping is idempotent, and in particular from a never-started
recorder the captured buffer stays empty. -/
theorem claim_C9_stop_noop_when_not_started (s : AppState)
    (h : s.stream = false) :
    stop_recording s = s ∧
    stop_recording (stop_recording s) = stop_recording s ∧
    (stop_recording s).audio_chunks = s.audio_chunks := by
  have h1 : stop_recording s = s := by simp [stop_recording, h]
  exact ⟨h1, by rw [h1, h1], by rw [h1]⟩

/-- C9 witness: the initial, never-started state. -/
theorem claim_C9_witness :
    initState.stream = false ∧
    (stop_recording initState = initState ∧
     stop_recording (stop_recording initState) = stop_recording initState ∧
     (stop_recording initState).audio_chunks = initState.audio_chunks) :=
  ⟨rfl, claim_C9_stop_noop_when_not_started initState rfl⟩

/-- C10: every `transcribe` call writes its WAV to the same constant path
— the fixed file name `dictation_recording.wav` inside the temp directory
— independent of the audio and of the API outcome, so any two invocations
share one temp file. -/
theorem claim_C10_constant_tmp_path (tempDir : String)
    (audio1 audio2 : List Int) (api1 api2 : Except Unit ApiResponse) :
    (transcribe tempDir audio1 api1).wavPath
      = (transcribe tempDir audio2 api2).wavPath ∧
    (transcribe tempDir audio1 api1).wavPath
      = tempDir ++ "/" ++ "dictation_recording.wav" := by
  cases api1 <;> cases api2 <;> exact ⟨rfl, rfl⟩

end Dictation
